import Mathlib

/-!
Verification of the tandem-fetch binary event decoder.

This file is a shallow embedding of the decoder core:
`src/tandem_fetch/events/raw_event.py` (frame header parsing and timestamp
resolution) and `src/tandem_fetch/events/generic.py` (the base64 → frames →
typed events pipeline). Byte strings are `List Nat` with every element `< 256`.
Python library functions used by the source (`struct.unpack_from`,
`base64.b64decode`, `arrow`) are embedded with their documented semantics.
The event registry `EVENT_IDS` and the `batched` helper live in modules
`events/events.py` and `events/utils.py`, which are not part of the sources
available here; those two pieces are modelled from the specification, as
marked on their definitions.
-/

namespace TandemFetch

/-- Constant `EVENT_LEN` from `events/raw_event.py`: a frame is 26 bytes. -/
def EVENT_LEN : Nat := 26

/-- Constant `TANDEM_EPOCH` from `events/raw_event.py`: the vendor epoch as a Unix time. -/
def TANDEM_EPOCH : Nat := 1199145600

/-- Constant `TIMEZONE_NAME` from `definitions.py`: the configured zone identifier. -/
def TIMEZONE_NAME : String := "America/Los_Angeles"

/-- Error taxonomy of the decoder core. `MalformedHeaderError` models the
`struct.error` raised by `struct.unpack_from` on a too-short buffer;
`UnknownEventTypeError` models a failed registry lookup (it names the
offending id); `InvalidEncodingError` models `binascii.Error` from
`base64.b64decode`; `NonAsciiInputError` models the `ValueError` raised by
`base64.b64decode` on a string with non-ASCII characters. -/
inductive DecodeError where
  | MalformedHeaderError : DecodeError
  | UnknownEventTypeError : Nat → DecodeError
  | InvalidEncodingError : DecodeError
  | NonAsciiInputError : DecodeError
deriving Repr, DecidableEq

instance instDecidableEqExcept {ε α : Type} [DecidableEq ε] [DecidableEq α] :
    DecidableEq (Except ε α)
  | .ok a, .ok b =>
    if h : a = b then .isTrue (by rw [h])
    else .isFalse (fun hc => h (Except.ok.inj hc))
  | .ok _, .error _ => .isFalse (fun hc => Except.noConfusion hc)
  | .error _, .ok _ => .isFalse (fun hc => Except.noConfusion hc)
  | .error e, .error f =>
    if h : e = f then .isTrue (by rw [h])
    else .isFalse (fun hc => h (Except.error.inj hc))

/-- Big-endian integer value of the `count` bytes of `bs` starting at `off`. -/
def beBytes (bs : List Nat) (off count : Nat) : Nat :=
  (List.range count).foldl (fun acc i => 256 * acc + bs.getD (off + i) 0) 0

/-- Models CPython `struct.unpack_from(fmt, bs, off)` for a big-endian
unsigned format of `size` bytes (`">H"` has `size = 2`, `">I"` has
`size = 4`): it raises `struct.error` unless `off + size <= len(bs)`,
otherwise reads the `size` bytes at `off` big-endian. -/
def unpack_from_be (size : Nat) (bs : List Nat) (off : Nat) : Except DecodeError Nat :=
  if off + size ≤ bs.length then .ok (beBytes bs off size)
  else .error .MalformedHeaderError

/-- The `RawEvent` dataclass of `events/raw_event.py`. -/
structure RawEvent where
  source : Nat
  id : Nat
  timestampRaw : Nat
  seqNum : Nat
  raw : List Nat
deriving Repr, DecidableEq

/-- Method `RawEvent.build` from `events/raw_event.py`: unpack the big-endian u16 at
offset 0 and the big-endian u32s at offsets 2 and 6 of `raw[:EVENT_LEN]`,
then split the u16 as `source = (word & 0xF000) >> 12`,
`id = word & 0x0FFF`. -/
def RawEvent.build (raw : List Nat) : Except DecodeError RawEvent := do
  let sliced := raw.take EVENT_LEN
  let source_and_id ← unpack_from_be 2 sliced 0
  let timestampRaw ← unpack_from_be 4 sliced 2
  let seqNum ← unpack_from_be 4 sliced 6
  pure { source := (source_and_id &&& 0xF000) >>> 12
         , id := source_and_id &&& 0x0FFF
         , timestampRaw := timestampRaw
         , seqNum := seqNum
         , raw := raw }

/-- Proleptic Gregorian civil date `(year, month, day)` of a day count since
1970-01-01 (the standard civil-from-days algorithm, restricted to
nonnegative day counts). This is the UTC calendar arithmetic performed by
`arrow.get(t, tzinfo="UTC")`. -/
def civilFromDays (z : Nat) : Nat × Nat × Nat :=
  let zs := z + 719468
  let era := zs / 146097
  let doe := zs % 146097
  let yoe := (doe - doe / 1460 + doe / 36524 - doe / 146096) / 365
  let y := yoe + era * 400
  let doy := doe - (365 * yoe + yoe / 4 - yoe / 100)
  let mp := (5 * doy + 2) / 153
  let d := doy - (153 * mp + 2) / 5 + 1
  let m := if mp < 10 then mp + 3 else mp - 9
  (if m ≤ 2 then y + 1 else y, m, d)

/-- The observable fields of an `arrow.arrow.Arrow` value: the wall-clock
calendar/clock fields together with the attached zone name. -/
structure ArrowTime where
  year : Nat
  month : Nat
  day : Nat
  hour : Nat
  minute : Nat
  second : Nat
  tzinfo : String
deriving Repr, DecidableEq, Inhabited

/-- Models `arrow.get(t, tzinfo="UTC")` for a nonnegative Unix timestamp `t`:
the UTC calendar and clock fields of the instant `t`. -/
def arrowGetUTC (t : Nat) : ArrowTime :=
  let cd := civilFromDays (t / 86400)
  let sod := t % 86400
  { year := cd.1, month := cd.2.1, day := cd.2.2
    , hour := sod / 3600, minute := sod % 3600 / 60, second := sod % 60
    , tzinfo := "UTC" }

/-- Models `Arrow.replace(tzinfo=tz)`: the wall-clock fields are kept
verbatim and only the zone annotation is swapped. -/
def ArrowTime.replaceTz (a : ArrowTime) (tz : String) : ArrowTime :=
  { a with tzinfo := tz }

/-- The `RawEvent.timestamp` property from `events/raw_event.py`:
`arrow.get(TANDEM_EPOCH + timestampRaw, tzinfo="UTC").replace(tzinfo=TIMEZONE_NAME)`. -/
def RawEvent.timestamp (e : RawEvent) : ArrowTime :=
  (arrowGetUTC (TANDEM_EPOCH + e.timestampRaw)).replaceTz TIMEZONE_NAME

/-- Day count since 1970-01-01 of a Gregorian calendar date (the standard
days-from-civil algorithm, for dates on or after 1970-01-01). Used to state
which absolute instant a wall-clock date denotes. -/
def daysFromCivil (y m d : Nat) : Nat :=
  let ys := if m ≤ 2 then y - 1 else y
  let era := ys / 400
  let yoe := ys % 400
  let doy := (153 * (if 2 < m then m - 3 else m + 9) + 2) / 5 + d - 1
  let doe := yoe * 365 + yoe / 4 - yoe / 100 + doy
  era * 146097 + doe - 719468

/-- The Unix time denoted by a wall-clock date-time at or after 1970. -/
def wallClockSeconds (a : ArrowTime) : Nat :=
  86400 * daysFromCivil a.year a.month a.day
    + 3600 * a.hour + 60 * a.minute + a.second

/-- Value of an ASCII code in the base64 alphabet (`A`–`Z`, `a`–`z`, `0`–`9`,
`+`, `/`), or `none` for a character outside the alphabet. Models the
`table_a2b_base64` lookup of CPython `binascii`. -/
def decChar (c : Nat) : Option Nat :=
  if 65 ≤ c ∧ c ≤ 90 then some (c - 65)
  else if 97 ≤ c ∧ c ≤ 122 then some (c - 71)
  else if 48 ≤ c ∧ c ≤ 57 then some (c + 4)
  else if c = 43 then some 62
  else if c = 47 then some 63
  else none

/-- Models the decode loop of CPython `binascii.a2b_base64` in non-strict
mode (what `base64.b64decode` runs with `validate=False`): characters
outside the alphabet are ignored; `=` when at least two data characters of
the current quad are present counts as padding and, once the quad is
completed by padding, decoding stops successfully; reaching the end of the
input mid-quad raises `binascii.Error`. State: `qp` is the position within
the current quad, `left` the pending bits of the previous character, `pads`
the count of padding characters seen since the last data character. -/
def a2bBase64 (chars : List Nat) (qp left pads : Nat) :
    Except DecodeError (List Nat) :=
  match chars with
  | [] => if qp = 0 then .ok [] else .error .InvalidEncodingError
  | c :: rest =>
    if c = 61 then
      if 2 ≤ qp then
        if 4 ≤ qp + pads + 1 then .ok []
        else a2bBase64 rest qp left (pads + 1)
      else a2bBase64 rest qp left pads
    else
      match decChar c with
      | none => a2bBase64 rest qp left pads
      | some v =>
        match qp with
        | 0 => a2bBase64 rest 1 v 0
        | 1 => (a2bBase64 rest 2 (v % 16) 0).map (fun l => (left * 4 + v / 16) :: l)
        | 2 => (a2bBase64 rest 3 (v % 4) 0).map (fun l => (left * 16 + v / 4) :: l)
        | _ => (a2bBase64 rest 0 0 0).map (fun l => (left * 64 + v) :: l)

/-- Function `decode_raw_events` from `events/generic.py`:
`base64.b64decode(raw_events)`. `b64decode` first requires the string to be
pure ASCII, then runs non-strict `a2b_base64` on it. -/
def decode_raw_events (raw_events : List Nat) : Except DecodeError (List Nat) :=
  if raw_events.all (fun c => c < 128) then a2bBase64 raw_events 0 0 0
  else .error .NonAsciiInputError

/-- ASCII code of the base64 digit `n < 64`, the alphabet used by
`base64.b64encode`. -/
def encChar (n : Nat) : Nat :=
  if n < 26 then 65 + n
  else if n < 52 then 71 + n
  else if n < 62 then n - 4
  else if n = 62 then 43
  else 47

/-- Models CPython `base64.b64encode`: the canonical (well-formed) base64
encoding of a byte sequence. -/
def b64encode : List Nat → List Nat
  | a :: b :: c :: rest =>
    encChar (a / 4) :: encChar (a % 4 * 16 + b / 16)
      :: encChar (b % 16 * 4 + c / 64) :: encChar (c % 64) :: b64encode rest
  | [a, b] => [encChar (a / 4), encChar (a % 4 * 16 + b / 16), encChar (b % 16 * 4), 61]
  | [a] => [encChar (a / 4), encChar (a % 4 * 16), 61, 61]
  | [] => []

/-- Modelled from the spec: `batched` from `events/utils.py` is not among the
available sources. Per spec §4.1 (FrameSplitter) it slices a byte buffer
into fixed-size `n`-byte chunks in input order, silently dropping a trailing
partial chunk: the `i`-th chunk is bytes `n*i` through `n*i + (n-1)`, for
`i` up to `length / n`. -/
def batched (bs : List Nat) (n : Nat) : List (List Nat) :=
  (List.range (bs.length / n)).map (fun i => (bs.drop (n * i)).take n)

/-- Modelled from the spec: the typed event classes of `events/events.py`
are not among the available sources. Per spec §3 every decoded event carries
at minimum the type id, the resolved timestamp and the sequence number,
plus kind-specific fields extracted from the payload region (the frame
bytes beyond the 10-byte header). -/
structure BaseEvent where
  type_id : Nat
  timestamp : ArrowTime
  sequence_number : Nat
  payload : List Nat
deriving Repr, DecidableEq, Inhabited

/-- Function `get_event` from `events/generic.py`:
`EVENT_IDS[RawEvent.build(event_bytes).id].build(event_bytes)`. The registry
`EVENT_IDS` and the per-kind `build` live in `events/events.py`, which is
not among the available sources, and are modelled from the spec (§4.4, §3):
the registry is the list of registered type ids, lookup of an unregistered
id fails with `UnknownEventTypeError` naming it, and the selected decoder
builds the event from the frame with the resolved timestamp of the header and
sequence number. -/
def get_event (registry : List Nat) (event_bytes : List Nat) :
    Except DecodeError BaseEvent := do
  let re ← RawEvent.build event_bytes
  if re.id ∈ registry then
    pure { type_id := re.id, timestamp := re.timestamp
           , sequence_number := re.seqNum, payload := event_bytes.drop 10 }
  else throw (.UnknownEventTypeError re.id)

/-- Semantics of pulling a Python generator to exhaustion: the values it
yields before the first raised exception, paired with that exception when
one occurs. A generator whose body raises is finished: it yields nothing
further, so everything after the failing element is lost. -/
def runGen (registry : List Nat) (frames : List (List Nat)) :
    List BaseEvent × Option DecodeError :=
  match frames with
  | [] => ([], none)
  | f :: rest =>
    match get_event registry f with
    | .error e => ([], some e)
    | .ok ev => ((ev :: (runGen registry rest).1, (runGen registry rest).2))

/-- Function `get_event_generator` from `events/generic.py`:
`(get_event(bytearray(e)) for e in batched(events_bytes, EVENT_LEN))`, run
to exhaustion under Python generator semantics (`runGen`). -/
def get_event_generator (registry : List Nat) (events_bytes : List Nat) :
    List BaseEvent × Option DecodeError :=
  runGen registry (batched events_bytes EVENT_LEN)

/-- The end-to-end pipeline of spec §4.6, composed exactly as the caller in
`tsource.py` composes it:
`list(get_event_generator(decode_raw_events(raw_pump_events)))`. -/
def decodePipeline (registry : List Nat) (s : List Nat) :
    Except DecodeError (List BaseEvent × Option DecodeError) :=
  (decode_raw_events s).map (get_event_generator registry)

/-- Predicate: the type id of a frame is registered: the header parses and its `id` field is
in the registry. (Decidable statement form of "the type id of every frame is
registered".) -/
def frameRegistered (registry : List Nat) (f : List Nat) : Bool :=
  match RawEvent.build f with
  | .ok ev => ev.id ∈ registry
  | .error _ => false

example : batched [1, 2, 3, 4, 5, 6, 7] 3 = [[1, 2, 3], [4, 5, 6]] := by decide
example : (get_event_generator [256]
    ([1, 0, 0, 0, 0, 100, 0, 0, 0, 1] ++ List.replicate 16 0)).1.length = 1 := by
  decide

example : b64encode [97, 98, 99] = [89, 87, 74, 106] := by decide
example : decode_raw_events [89, 87, 74, 106] = .ok [97, 98, 99] := by decide
example : decode_raw_events [35, 35, 35, 35] = .ok [] := by decide
example : decode_raw_events [89, 81, 61, 61] = .ok [97] := by decide
example : decode_raw_events [89, 81] = .error .InvalidEncodingError := by decide
example : decode_raw_events [89, 81, 35, 61, 61] = .ok [97] := by decide
example : decode_raw_events (b64encode [1, 2, 3, 4, 5]) = .ok [1, 2, 3, 4, 5] := by decide

example : civilFromDays 13879 = (2008, 1, 1) := by decide
example : 86400 * daysFromCivil 2008 1 1 = TANDEM_EPOCH := by decide
example : RawEvent.build [0x20, 0xAB, 0, 1, 0x86, 0xA0, 0, 0, 0, 42,
    0, 0, 0, 0, 0, 0, 0, 0, 0, 0, 0, 0, 0, 0, 0, 0]
    = .ok { source := 2, id := 0x0AB, timestampRaw := 100000, seqNum := 42
            , raw := [0x20, 0xAB, 0, 1, 0x86, 0xA0, 0, 0, 0, 42,
                      0, 0, 0, 0, 0, 0, 0, 0, 0, 0, 0, 0, 0, 0, 0, 0] } := by
  decide

theorem except_bind_ok {ε α β : Type} (a : α) (f : α → Except ε β) :
    (Except.ok a >>= f : Except ε β) = f a := rfl

theorem except_bind_error {ε α β : Type} (e : ε) (f : α → Except ε β) :
    (Except.error e >>= f : Except ε β) = Except.error e := rfl

theorem except_map_ok {ε α β : Type} (a : α) (f : α → β) :
    (Except.ok a : Except ε α).map f = .ok (f a) := rfl

theorem except_map_error {ε α β : Type} (e : ε) (f : α → β) :
    (Except.error e : Except ε α).map f = .error e := rfl

theorem getD_take_of_lt (bs : List Nat) {n i : Nat} (h : i < n) :
    (bs.take n).getD i 0 = bs.getD i 0 := by
  simp [List.getD_eq_getElem?_getD, List.getElem?_take_of_lt h]

theorem getD_lt_256 (bs : List Nat) (hbytes : ∀ b ∈ bs, b < 256) (i : Nat) :
    bs.getD i 0 < 256 := by
  rcases h : bs[i]? with _ | b
  · simp [List.getD_eq_getElem?_getD, h]
  · have hb : b ∈ bs := by
      have hi : i < bs.length := by
        by_contra hc
        rw [List.getElem?_eq_none (by omega)] at h
        exact Option.noConfusion h
      rw [List.getElem?_eq_getElem hi] at h
      rw [← Option.some.inj h]
      exact List.getElem_mem hi
    simpa [List.getD_eq_getElem?_getD, h] using hbytes b hb

theorem beBytes_two (bs : List Nat) (off : Nat) :
    beBytes bs off 2 = 256 * bs.getD off 0 + bs.getD (off + 1) 0 := by
  simp [beBytes, List.range_succ]

theorem beBytes_four (bs : List Nat) (off : Nat) :
    beBytes bs off 4 =
      256 * (256 * (256 * bs.getD off 0 + bs.getD (off + 1) 0)
        + bs.getD (off + 2) 0) + bs.getD (off + 3) 0 := by
  simp [beBytes, List.range_succ]

theorem and_0fff_eq_mod (w : Nat) : w &&& 0x0FFF = w % 4096 := by
  have h : (0x0FFF : Nat) = 2 ^ 12 - 1 := by decide
  rw [h, Nat.and_pow_two_sub_one_eq_mod]

theorem and_shiftLeft_shiftRight (w m k : Nat) :
    (w &&& m <<< k) >>> k = (w >>> k) &&& m := by
  apply Nat.eq_of_testBit_eq
  intro i
  simp [Nat.testBit_shiftRight, Nat.testBit_and, Nat.testBit_shiftLeft,
    Nat.le_add_right, Nat.add_sub_cancel_left]

theorem and_f000_shiftRight_eq_div (w : Nat) (hw : w < 65536) :
    (w &&& 0xF000) >>> 12 = w / 4096 := by
  have h15 : (0xF000 : Nat) = 15 <<< 12 := by decide
  have hdiv : w >>> 12 = w / 4096 := by
    rw [Nat.shiftRight_eq_div_pow]
  have h16 : (15 : Nat) = 2 ^ 4 - 1 := by decide
  rw [h15, and_shiftLeft_shiftRight, hdiv, h16,
    Nat.and_pow_two_sub_one_eq_mod]
  exact Nat.mod_eq_of_lt (by omega)

theorem build_ok_of_len (bs : List Nat) (hlen : 10 ≤ bs.length) :
    RawEvent.build bs = .ok
      { source := (beBytes (bs.take EVENT_LEN) 0 2 &&& 0xF000) >>> 12
        , id := beBytes (bs.take EVENT_LEN) 0 2 &&& 0x0FFF
        , timestampRaw := beBytes (bs.take EVENT_LEN) 2 4
        , seqNum := beBytes (bs.take EVENT_LEN) 6 4
        , raw := bs } := by
  have hl : (bs.take EVENT_LEN).length = min 26 bs.length := by
    simp [EVENT_LEN]
  have h2 : 0 + 2 ≤ min 26 bs.length := by omega
  have h6 : 2 + 4 ≤ min 26 bs.length := by omega
  have h10 : 6 + 4 ≤ min 26 bs.length := by omega
  simp only [RawEvent.build, unpack_from_be, hl, if_pos h2, if_pos h6,
    if_pos h10, except_bind_ok]
  rfl

theorem build_fields (bs : List Nat) (hlen : 10 ≤ bs.length) :
    ∃ ev, RawEvent.build bs = .ok ev
      ∧ ev.source = ((256 * bs.getD 0 0 + bs.getD 1 0) &&& 0xF000) >>> 12
      ∧ ev.id = (256 * bs.getD 0 0 + bs.getD 1 0) &&& 0x0FFF
      ∧ ev.timestampRaw
          = 256 * (256 * (256 * bs.getD 2 0 + bs.getD 3 0) + bs.getD 4 0)
            + bs.getD 5 0
      ∧ ev.seqNum
          = 256 * (256 * (256 * bs.getD 6 0 + bs.getD 7 0) + bs.getD 8 0)
            + bs.getD 9 0
      ∧ ev.raw = bs := by
  have h26 : ∀ i, i < 26 → (bs.take EVENT_LEN)[i]? = bs[i]? := by
    intro i hi
    exact List.getElem?_take_of_lt (by simpa [EVENT_LEN] using hi)
  refine ⟨_, build_ok_of_len bs hlen, ?_, ?_, ?_, ?_, rfl⟩ <;>
    simp [beBytes_two, beBytes_four,
      h26 0 (by omega), h26 1 (by omega), h26 2 (by omega), h26 3 (by omega),
      h26 4 (by omega), h26 5 (by omega), h26 6 (by omega), h26 7 (by omega),
      h26 8 (by omega), h26 9 (by omega)]

/-- C1: for every byte sequence of at least the frame length (26 bytes),
header parsing succeeds and extracts `source` as the high 4 bits and `id`
(the type id) as the low 12 bits of the big-endian 16-bit word at bytes
0–1, `timestampRaw` as the big-endian 32-bit word at bytes 2–5 and `seqNum`
as the big-endian 32-bit word at bytes 6–9; in particular a frame whose
first two bytes encode `0x20AB` yields `source = 2` and `id = 0x0AB`. -/
theorem claim1_header_field_extraction (bs : List Nat)
    (hlen : EVENT_LEN ≤ bs.length) (hbytes : ∀ b ∈ bs, b < 256) :
    ∃ ev : RawEvent, RawEvent.build bs = .ok ev
      ∧ ev.source = (256 * bs.getD 0 0 + bs.getD 1 0) / 4096
      ∧ ev.id = (256 * bs.getD 0 0 + bs.getD 1 0) % 4096
      ∧ ev.timestampRaw
          = 256 * (256 * (256 * bs.getD 2 0 + bs.getD 3 0) + bs.getD 4 0)
            + bs.getD 5 0
      ∧ ev.seqNum
          = 256 * (256 * (256 * bs.getD 6 0 + bs.getD 7 0) + bs.getD 8 0)
            + bs.getD 9 0
      ∧ (bs.getD 0 0 = 0x20 → bs.getD 1 0 = 0xAB
          → ev.source = 2 ∧ ev.id = 0x0AB) := by
  have hlen10 : 10 ≤ bs.length := by
    simp only [EVENT_LEN] at hlen; omega
  obtain ⟨ev, hok, hs, hi, ht, hq, _⟩ := build_fields bs hlen10
  have hb0 := getD_lt_256 bs hbytes 0
  have hb1 := getD_lt_256 bs hbytes 1
  have hw : 256 * bs.getD 0 0 + bs.getD 1 0 < 65536 := by omega
  refine ⟨ev, hok, ?_, ?_, ht, hq, ?_⟩
  · rw [hs, and_f000_shiftRight_eq_div _ hw]
  · rw [hi, and_0fff_eq_mod]
  · intro h0 h1
    constructor
    · rw [hs, and_f000_shiftRight_eq_div _ hw, h0, h1]
    · rw [hi, and_0fff_eq_mod, h0, h1]

/-- C1 witness: the synthetic frame `0x20AB`-headed with raw timestamp
100000 and sequence number 42 is parsed with `source = 2`, `id = 0x0AB`. -/
theorem claim1_header_field_extraction_witness :
    ∃ ev : RawEvent,
      RawEvent.build [0x20, 0xAB, 0, 1, 0x86, 0xA0, 0, 0, 0, 42,
          0, 0, 0, 0, 0, 0, 0, 0, 0, 0, 0, 0, 0, 0, 0, 0] = .ok ev
        ∧ ev.source = (256 * 0x20 + 0xAB) / 4096
        ∧ ev.id = (256 * 0x20 + 0xAB) % 4096
        ∧ ev.timestampRaw = 256 * (256 * (256 * 0 + 1) + 0x86) + 0xA0
        ∧ ev.seqNum = 256 * (256 * (256 * 0 + 0) + 0) + 42
        ∧ ev.source = 2 ∧ ev.id = 0x0AB := by
  obtain ⟨ev, hok, hs, hi, ht, hq, hp⟩ :=
    claim1_header_field_extraction
      [0x20, 0xAB, 0, 1, 0x86, 0xA0, 0, 0, 0, 42,
        0, 0, 0, 0, 0, 0, 0, 0, 0, 0, 0, 0, 0, 0, 0, 0]
      (by decide) (by decide)
  obtain ⟨h2, hab⟩ := hp (by decide) (by decide)
  exact ⟨ev, hok, hs, hi, ht, hq, h2, hab⟩

/-- C8: header parsing fails — with the defined, catchable
`MalformedHeaderError` value — exactly when the input is shorter than the
10-byte minimum header size; for every input of at least 10 bytes it
succeeds. -/
theorem claim8_malformed_header_iff_short (bs : List Nat) :
    (bs.length < 10 → RawEvent.build bs = .error .MalformedHeaderError)
      ∧ (10 ≤ bs.length → ∃ ev, RawEvent.build bs = .ok ev) := by
  constructor
  · intro hshort
    have hl : (bs.take EVENT_LEN).length = min 26 bs.length := by
      simp [EVENT_LEN]
    simp only [RawEvent.build, unpack_from_be, hl]
    by_cases h2 : 0 + 2 ≤ min 26 bs.length
    · simp only [if_pos h2, except_bind_ok]
      by_cases h6 : 2 + 4 ≤ min 26 bs.length
      · simp only [if_pos h6, except_bind_ok,
          if_neg (show ¬ 6 + 4 ≤ min 26 bs.length by omega), except_bind_error]
      · simp only [if_neg h6, except_bind_error]
    · simp only [if_neg h2, except_bind_error]
  · intro hlong
    exact ⟨_, build_ok_of_len bs hlong⟩

/-- C8 witness: a 9-byte input fails with `MalformedHeaderError` and a
10-byte input parses successfully. -/
theorem claim8_malformed_header_iff_short_witness :
    RawEvent.build [1, 2, 3, 4, 5, 6, 7, 8, 9] = .error .MalformedHeaderError
      ∧ ∃ ev, RawEvent.build [1, 2, 3, 4, 5, 6, 7, 8, 9, 10] = .ok ev :=
  ⟨(claim8_malformed_header_iff_short [1, 2, 3, 4, 5, 6, 7, 8, 9]).1 (by decide),
    (claim8_malformed_header_iff_short [1, 2, 3, 4, 5, 6, 7, 8, 9, 10]).2 (by decide)⟩

/-- C10: header parsing reads only the first 10 bytes of its input: any two
inputs of length at least 10 that agree on bytes 0–9 are both accepted and
produce equal `source`, `id`, `timestampRaw` and `seqNum` fields, whatever
their total lengths. -/
theorem claim10_header_depends_on_first_ten_bytes (bs1 bs2 : List Nat)
    (h1 : 10 ≤ bs1.length) (h2 : 10 ≤ bs2.length)
    (hagree : bs1.take 10 = bs2.take 10) :
    ∃ ev1 ev2, RawEvent.build bs1 = .ok ev1 ∧ RawEvent.build bs2 = .ok ev2
      ∧ ev1.source = ev2.source ∧ ev1.id = ev2.id
      ∧ ev1.timestampRaw = ev2.timestampRaw ∧ ev1.seqNum = ev2.seqNum := by
  have hbyte : ∀ i < 10, bs1.getD i 0 = bs2.getD i 0 := by
    intro i hi
    rw [← getD_take_of_lt bs1 hi, ← getD_take_of_lt bs2 hi, hagree]
  obtain ⟨ev1, hok1, hs1, hi1, ht1, hq1, _⟩ := build_fields bs1 h1
  obtain ⟨ev2, hok2, hs2, hi2, ht2, hq2, _⟩ := build_fields bs2 h2
  refine ⟨ev1, ev2, hok1, hok2, ?_, ?_, ?_, ?_⟩
  · rw [hs1, hs2, hbyte 0 (by omega), hbyte 1 (by omega)]
  · rw [hi1, hi2, hbyte 0 (by omega), hbyte 1 (by omega)]
  · rw [ht1, ht2, hbyte 2 (by omega), hbyte 3 (by omega),
      hbyte 4 (by omega), hbyte 5 (by omega)]
  · rw [hq1, hq2, hbyte 6 (by omega), hbyte 7 (by omega),
      hbyte 8 (by omega), hbyte 9 (by omega)]

/-- C10 witness: a 10-byte input and a 26-byte input agreeing on bytes 0–9
parse to the same header fields. -/
theorem claim10_header_depends_on_first_ten_bytes_witness :
    ∃ ev1 ev2,
      RawEvent.build [1, 2, 3, 4, 5, 6, 7, 8, 9, 10] = .ok ev1
        ∧ RawEvent.build [1, 2, 3, 4, 5, 6, 7, 8, 9, 10,
            11, 12, 13, 14, 15, 16, 17, 18, 19, 20,
            21, 22, 23, 24, 25, 26] = .ok ev2
        ∧ ev1.source = ev2.source ∧ ev1.id = ev2.id
        ∧ ev1.timestampRaw = ev2.timestampRaw ∧ ev1.seqNum = ev2.seqNum :=
  claim10_header_depends_on_first_ten_bytes
    [1, 2, 3, 4, 5, 6, 7, 8, 9, 10]
    [1, 2, 3, 4, 5, 6, 7, 8, 9, 10, 11, 12, 13, 14, 15, 16, 17, 18, 19, 20,
      21, 22, 23, 24, 25, 26]
    (by decide) (by decide) (by decide)

/-- C2: for every 32-bit unsigned `timestampRaw`, the wall-clock fields
of the resolved timestamp: (year, month, day, hour, minute, second) are exactly
those of 2008-01-01T00:00:00 UTC plus `timestampRaw` seconds computed in
UTC, and the configured zone identifier is attached as a label without
converting the clock fields; in particular `timestampRaw = 0` resolves to
wall-clock 2008-01-01T00:00:00 and `timestampRaw = 86400` to
2008-01-02T00:00:00. -/
theorem claim2_timestamp_resolution (e : RawEvent)
    (_hraw : e.timestampRaw ≤ 4294967295) :
    (e.timestamp
        = (arrowGetUTC
            (86400 * daysFromCivil 2008 1 1 + e.timestampRaw)).replaceTz
            TIMEZONE_NAME)
      ∧ e.timestamp.tzinfo = TIMEZONE_NAME
      ∧ (e.timestampRaw = 0 →
          e.timestamp = ⟨2008, 1, 1, 0, 0, 0, TIMEZONE_NAME⟩)
      ∧ (e.timestampRaw = 86400 →
          e.timestamp = ⟨2008, 1, 2, 0, 0, 0, TIMEZONE_NAME⟩) := by
  have hepoch : 86400 * daysFromCivil 2008 1 1 = TANDEM_EPOCH := by decide
  refine ⟨?_, rfl, ?_, ?_⟩
  · rw [hepoch]; rfl
  · intro h0
    simp only [RawEvent.timestamp, h0]
    decide
  · intro h86400
    simp only [RawEvent.timestamp, h86400]
    decide

/-- C2 witness: events with raw timestamps 0 and 86400 resolve to wall-clock
2008-01-01T00:00:00 and 2008-01-02T00:00:00 with the configured zone label. -/
theorem claim2_timestamp_resolution_witness :
    (RawEvent.mk 0 0 0 0 []).timestamp = ⟨2008, 1, 1, 0, 0, 0, TIMEZONE_NAME⟩
      ∧ (RawEvent.mk 0 0 86400 0 []).timestamp
          = ⟨2008, 1, 2, 0, 0, 0, TIMEZONE_NAME⟩ :=
  ⟨((claim2_timestamp_resolution (RawEvent.mk 0 0 0 0 [])
      (by decide)).2.2.1 rfl),
    ((claim2_timestamp_resolution (RawEvent.mk 0 0 86400 0 [])
      (by decide)).2.2.2 rfl)⟩

theorem batched_length (bs : List Nat) (n : Nat) :
    (batched bs n).length = bs.length / n := by
  simp [batched]

theorem batched_getElem (bs : List Nat) (n i : Nat)
    (hi : i < (batched bs n).length) :
    (batched bs n)[i] = (bs.drop (n * i)).take n := by
  simp [batched]

theorem batched_frame_length (bs : List Nat) (n : Nat) :
    ∀ f ∈ batched bs n, f.length = n := by
  intro f hf
  simp only [batched, List.mem_map, List.mem_range] at hf
  obtain ⟨i, hi, rfl⟩ := hf
  have h2 : n * (i + 1) ≤ n * (bs.length / n) := Nat.mul_le_mul_left n hi
  have h3 : n * (bs.length / n) ≤ bs.length := Nat.mul_div_le bs.length n
  have h4 : n * (i + 1) = n * i + n := by ring
  simp only [List.length_take, List.length_drop]
  omega

theorem batched_flatten (bs : List Nat) (n : Nat) :
    (batched bs n).flatten = bs.take (n * (bs.length / n)) := by
  suffices h : ∀ k,
      ((List.range k).map (fun i => (bs.drop (n * i)).take n)).flatten
        = bs.take (n * k) by
    simpa [batched] using h (bs.length / n)
  intro k
  induction k with
  | zero => simp
  | succ k ih =>
    rw [List.range_succ, List.map_append, List.flatten_append, ih]
    simp only [List.map_cons, List.map_nil, List.flatten_cons,
      List.flatten_nil, List.append_nil]
    rw [Nat.mul_succ, List.take_add]

theorem runGen_length_le (registry : List Nat) (frames : List (List Nat)) :
    (runGen registry frames).1.length ≤ frames.length := by
  induction frames with
  | nil => simp [runGen]
  | cons f rest ih =>
    rcases hev : get_event registry f with e | ev <;> simp [runGen, hev]
    omega

theorem runGen_all_ok (registry : List Nat) (frames : List (List Nat))
    (h : ∀ f ∈ frames, ∃ ev, get_event registry f = .ok ev) :
    (runGen registry frames).1.length = frames.length
      ∧ (runGen registry frames).2 = none := by
  induction frames with
  | nil => simp [runGen]
  | cons f rest ih =>
    obtain ⟨ev, hev⟩ := h f (List.mem_cons_self f rest)
    have ihr := ih (fun g hg => h g (List.mem_cons_of_mem f hg))
    simp [runGen, hev, ihr.1, ihr.2]

theorem runGen_getElem (registry : List Nat) (frames : List (List Nat)) :
    ∀ i (hi : i < (runGen registry frames).1.length),
      get_event registry (frames.getD i [])
        = .ok ((runGen registry frames).1[i]) := by
  induction frames with
  | nil => intro i hi; simp [runGen] at hi
  | cons f rest ih =>
    intro i hi
    rcases hev : get_event registry f with e | ev
    · rw [runGen] at hi
      simp [hev] at hi
    · match i with
      | 0 => simp [runGen, hev]
      | i + 1 =>
        have hi' : i < (runGen registry rest).1.length := by
          rw [runGen] at hi
          simpa [hev] using hi
        have := ih i hi'
        simpa [runGen, hev] using this

theorem get_event_ok_of_registered (registry : List Nat) (f : List Nat)
    (hf : frameRegistered registry f = true) :
    ∃ ev, get_event registry f = .ok ev := by
  unfold frameRegistered at hf
  rcases hre : RawEvent.build f with e | ev
  · rw [hre] at hf
    simp at hf
  · rw [hre] at hf
    simp at hf
    unfold get_event
    simp only [hre, except_bind_ok, if_pos hf]
    exact ⟨_, rfl⟩

/-- C3: the decode pipeline yields events strictly in input frame order: the
`i`-th yielded event is exactly the event built from the `i`-th 26-byte
frame of the buffer (bytes `26*i` through `26*i + 25`); and for the 52-byte
buffer made of two registered frames with raw timestamps 100 and 200, it
yields exactly those two events in that order, the timestamp of the second one
exactly 100 seconds after the first. -/
theorem claim3_order_preserved :
    (∀ (registry bs : List Nat) (i : Nat)
        (hi : i < (get_event_generator registry bs).1.length),
      get_event registry ((bs.drop (EVENT_LEN * i)).take EVENT_LEN)
        = .ok ((get_event_generator registry bs).1[i]))
      ∧ (get_event_generator [256]
            ([1, 0, 0, 0, 0, 100, 0, 0, 0, 1] ++ List.replicate 16 0
              ++ ([1, 0, 0, 0, 0, 200, 0, 0, 0, 2] ++ List.replicate 16 0))).1.length
          = 2
      ∧ (get_event_generator [256]
            ([1, 0, 0, 0, 0, 100, 0, 0, 0, 1] ++ List.replicate 16 0
              ++ ([1, 0, 0, 0, 0, 200, 0, 0, 0, 2] ++ List.replicate 16 0))).2
          = none
      ∧ wallClockSeconds ((get_event_generator [256]
            ([1, 0, 0, 0, 0, 100, 0, 0, 0, 1] ++ List.replicate 16 0
              ++ ([1, 0, 0, 0, 0, 200, 0, 0, 0, 2] ++ List.replicate 16 0))).1.getD
            1 default).timestamp
          = wallClockSeconds ((get_event_generator [256]
              ([1, 0, 0, 0, 0, 100, 0, 0, 0, 1] ++ List.replicate 16 0
                ++ ([1, 0, 0, 0, 0, 200, 0, 0, 0, 2] ++ List.replicate 16 0))).1.getD
              0 default).timestamp + 100 := by
  refine ⟨?_, by decide, by decide, by decide⟩
  intro registry bs i hi
  have hlen : i < (batched bs EVENT_LEN).length :=
    Nat.lt_of_lt_of_le hi (runGen_length_le registry (batched bs EVENT_LEN))
  have hgd : (batched bs EVENT_LEN).getD i []
      = (bs.drop (EVENT_LEN * i)).take EVENT_LEN := by
    rw [List.getD_eq_getElem?_getD, List.getElem?_eq_getElem hlen,
      batched_getElem bs EVENT_LEN i hlen]
    rfl
  have h := runGen_getElem registry (batched bs EVENT_LEN) i hi
  rw [hgd] at h
  exact h

/-- C3 witness: in the two-frame scenario buffer, the event at index 0 is
the one decoded from bytes 0–25. -/
theorem claim3_order_preserved_witness :
    get_event [256]
        ((([1, 0, 0, 0, 0, 100, 0, 0, 0, 1] ++ List.replicate 16 0
          ++ ([1, 0, 0, 0, 0, 200, 0, 0, 0, 2]
            ++ List.replicate 16 0)).drop (EVENT_LEN * 0)).take EVENT_LEN)
      = .ok ((get_event_generator [256]
          ([1, 0, 0, 0, 0, 100, 0, 0, 0, 1] ++ List.replicate 16 0
            ++ ([1, 0, 0, 0, 0, 200, 0, 0, 0, 2]
              ++ List.replicate 16 0))).1.get ⟨0, by decide⟩) :=
  claim3_order_preserved.1 [256]
    ([1, 0, 0, 0, 0, 100, 0, 0, 0, 1] ++ List.replicate 16 0
      ++ ([1, 0, 0, 0, 0, 200, 0, 0, 0, 2] ++ List.replicate 16 0))
    0 (by decide)

/-- C4: for every byte buffer whose length is an exact multiple of 26 and in
which the type id of every frame is registered, the number of decoded events is
the buffer length divided by 26 (and no error occurs). -/
theorem claim4_event_count (registry : List Nat) (bs : List Nat)
    (_hmul : bs.length % EVENT_LEN = 0)
    (hreg : ∀ f ∈ batched bs EVENT_LEN, frameRegistered registry f = true) :
    (get_event_generator registry bs).1.length = bs.length / EVENT_LEN
      ∧ (get_event_generator registry bs).2 = none := by
  have hok : ∀ f ∈ batched bs EVENT_LEN, ∃ ev, get_event registry f = .ok ev := by
    intro f hf
    exact get_event_ok_of_registered registry f (hreg f hf)
  have h := runGen_all_ok registry (batched bs EVENT_LEN) hok
  constructor
  · show (runGen registry (batched bs EVENT_LEN)).1.length = _
    rw [h.1, batched_length]
  · exact h.2

/-- C4 witness: a 52-byte buffer of two registered frames decodes to
exactly 2 events. -/
theorem claim4_event_count_witness :
    (get_event_generator [256]
        ([1, 0, 0, 0, 0, 100, 0, 0, 0, 1] ++ List.replicate 16 0
          ++ ([1, 0, 0, 0, 0, 200, 0, 0, 0, 2] ++ List.replicate 16 0))).1.length
      = ([1, 0, 0, 0, 0, 100, 0, 0, 0, 1] ++ List.replicate 16 0
          ++ ([1, 0, 0, 0, 0, 200, 0, 0, 0, 2]
            ++ List.replicate 16 0) : List Nat).length / EVENT_LEN :=
  (claim4_event_count [256]
    ([1, 0, 0, 0, 0, 100, 0, 0, 0, 1] ++ List.replicate 16 0
      ++ ([1, 0, 0, 0, 0, 200, 0, 0, 0, 2] ++ List.replicate 16 0))
    (by decide) (by decide)).1

/-- C5: for every byte buffer whose length is not a multiple of 26 the
trailing `length % 26` bytes are excluded from decoding: every frame handed
to the header codec is exactly 26 bytes, the frames together cover exactly
the first `length - length % 26` bytes, and their count is `length / 26`. -/
theorem claim5_trailing_partial_dropped (bs : List Nat)
    (_hnot : bs.length % EVENT_LEN ≠ 0) :
    (∀ f ∈ batched bs EVENT_LEN, f.length = EVENT_LEN)
      ∧ (batched bs EVENT_LEN).flatten
          = bs.take (bs.length - bs.length % EVENT_LEN)
      ∧ (batched bs EVENT_LEN).length = bs.length / EVENT_LEN := by
  refine ⟨batched_frame_length bs EVENT_LEN, ?_, batched_length bs EVENT_LEN⟩
  rw [batched_flatten]
  congr 1
  simp only [EVENT_LEN]
  omega

/-- C5 witness: a 30-byte buffer is decoded as a single 26-byte frame, the
trailing 4 bytes dropped. -/
theorem claim5_trailing_partial_dropped_witness :
    (∀ f ∈ batched (List.replicate 30 7) EVENT_LEN, f.length = EVENT_LEN)
      ∧ (batched (List.replicate 30 7) EVENT_LEN).flatten
          = (List.replicate 30 7).take
              ((List.replicate 30 7 : List Nat).length
                - (List.replicate 30 7 : List Nat).length % EVENT_LEN)
      ∧ (batched (List.replicate 30 7) EVENT_LEN).length
          = (List.replicate 30 7 : List Nat).length / EVENT_LEN :=
  claim5_trailing_partial_dropped (List.replicate 30 7) (by decide)

/-- C6 as stated is false on this code: an unregistered type id does fail
with `UnknownEventTypeError` naming the offending id, but that exception
terminates the generator, so frames after the unregistered one are NOT
decoded. Here: a 52-byte buffer whose first frame has the unregistered id
257 and whose second frame has the registered id 256 yields no events at
all — the registered second frame never decodes. -/
theorem claim6_counterexample_failure_not_isolated :
    (get_event_generator [256]
        ([1, 1, 0, 0, 0, 100, 0, 0, 0, 1] ++ List.replicate 16 0
          ++ ([1, 0, 0, 0, 0, 200, 0, 0, 0, 2] ++ List.replicate 16 0))).1 = []
      ∧ (get_event_generator [256]
          ([1, 1, 0, 0, 0, 100, 0, 0, 0, 1] ++ List.replicate 16 0
            ++ ([1, 0, 0, 0, 0, 200, 0, 0, 0, 2] ++ List.replicate 16 0))).2
          = some (.UnknownEventTypeError 257) := by
  decide

/-- C6 amended: a frame whose type id is not in the registry fails with
`UnknownEventTypeError` naming the offending id, and the failure is fatal
to the remaining sequence: the generator raises when that frame is pulled
and yields nothing further, so no frame after the unregistered one is
decoded. -/
theorem claim6_amended_unknown_id_aborts (registry : List Nat)
    (f : List Nat) (frames : List (List Nat)) (ev : RawEvent)
    (hbuild : RawEvent.build f = .ok ev) (hunreg : ev.id ∉ registry) :
    get_event registry f = .error (.UnknownEventTypeError ev.id)
      ∧ runGen registry (f :: frames)
          = ([], some (.UnknownEventTypeError ev.id)) := by
  have h1 : get_event registry f = .error (.UnknownEventTypeError ev.id) := by
    simp only [get_event, hbuild, except_bind_ok, if_neg hunreg]
    rfl
  exact ⟨h1, by simp [runGen, h1]⟩

/-- C6 amended witness: the frame with unregistered id 257 fails with
`UnknownEventTypeError 257` and aborts the rest of the sequence. -/
theorem claim6_amended_unknown_id_aborts_witness :
    get_event [256] ([1, 1, 0, 0, 0, 100, 0, 0, 0, 1] ++ List.replicate 16 0)
        = .error (.UnknownEventTypeError 257)
      ∧ runGen [256]
          [[1, 1, 0, 0, 0, 100, 0, 0, 0, 1] ++ List.replicate 16 0,
            [1, 0, 0, 0, 0, 200, 0, 0, 0, 2] ++ List.replicate 16 0]
          = ([], some (.UnknownEventTypeError 257)) :=
  claim6_amended_unknown_id_aborts [256]
    ([1, 1, 0, 0, 0, 100, 0, 0, 0, 1] ++ List.replicate 16 0)
    [[1, 0, 0, 0, 0, 200, 0, 0, 0, 2] ++ List.replicate 16 0]
    { source := 0, id := 257, timestampRaw := 100, seqNum := 1
      , raw := [1, 1, 0, 0, 0, 100, 0, 0, 0, 1] ++ List.replicate 16 0 }
    (by decide) (by decide)

/-- C9: decoding is deterministic and path-independent: any base64 string
that decodes to bytes `bs` yields through the full pipeline exactly the
event sequence obtained from the raw bytes `bs` directly, and two strings
decoding to the same underlying bytes give identical outputs,
field-for-field and order-for-order. -/
theorem claim9_decode_deterministic (registry : List Nat)
    (s1 s2 bs : List Nat)
    (h1 : decode_raw_events s1 = .ok bs)
    (h2 : decode_raw_events s2 = .ok bs) :
    decodePipeline registry s1 = .ok (get_event_generator registry bs)
      ∧ decodePipeline registry s1 = decodePipeline registry s2 := by
  constructor
  · simp [decodePipeline, h1, except_map_ok]
  · simp [decodePipeline, h1, h2]

/-- C9 witness: the strings "YQ==" and "YQ#==" both decode to the byte 97
and produce identical pipeline output. -/
theorem claim9_decode_deterministic_witness :
    decodePipeline [] [89, 81, 61, 61]
        = .ok (get_event_generator [] [97])
      ∧ decodePipeline [] [89, 81, 61, 61]
          = decodePipeline [] [89, 81, 35, 61, 61] :=
  claim9_decode_deterministic [] [89, 81, 61, 61] [89, 81, 35, 61, 61] [97]
    (by decide) (by decide)

theorem decChar_encChar : ∀ v, v < 64 → decChar (encChar v) = some v := by
  decide

theorem encChar_ne_61 : ∀ v, v < 64 → encChar v ≠ 61 := by
  decide

theorem encChar_lt_128 (v : Nat) : encChar v < 128 := by
  unfold encChar
  repeat' split
  all_goals omega

theorem b64encode_ascii (bs : List Nat) :
    (b64encode bs).all (fun c => c < 128) = true := by
  induction bs using b64encode.induct with
  | case1 a b c rest ih => simp [b64encode, encChar_lt_128, ih]
  | case2 a b => simp [b64encode, encChar_lt_128]
  | case3 a => simp [b64encode, encChar_lt_128]
  | case4 => simp [b64encode]

theorem a2b_data0 (x v : Nat) (rest : List Nat) (left pads : Nat)
    (hx : decChar x = some v) (hne : x ≠ 61) :
    a2bBase64 (x :: rest) 0 left pads = a2bBase64 rest 1 v 0 := by
  simp only [a2bBase64, if_neg hne, hx]

theorem a2b_data1 (x v : Nat) (rest : List Nat) (left pads : Nat)
    (hx : decChar x = some v) (hne : x ≠ 61) :
    a2bBase64 (x :: rest) 1 left pads
      = (a2bBase64 rest 2 (v % 16) 0).map (fun l => (left * 4 + v / 16) :: l) := by
  simp only [a2bBase64, if_neg hne, hx]

theorem a2b_data2 (x v : Nat) (rest : List Nat) (left pads : Nat)
    (hx : decChar x = some v) (hne : x ≠ 61) :
    a2bBase64 (x :: rest) 2 left pads
      = (a2bBase64 rest 3 (v % 4) 0).map (fun l => (left * 16 + v / 4) :: l) := by
  simp only [a2bBase64, if_neg hne, hx]

theorem a2b_data3 (x v : Nat) (rest : List Nat) (left pads : Nat)
    (hx : decChar x = some v) (hne : x ≠ 61) :
    a2bBase64 (x :: rest) 3 left pads
      = (a2bBase64 rest 0 0 0).map (fun l => (left * 64 + v) :: l) := by
  simp only [a2bBase64, if_neg hne, hx]

theorem a2b_pad_done (rest : List Nat) (qp left pads : Nat)
    (h2 : 2 ≤ qp) (h4 : 4 ≤ qp + pads + 1) :
    a2bBase64 (61 :: rest) qp left pads = .ok [] := by
  simp only [a2bBase64, if_pos rfl, if_true, if_pos h2, if_pos h4]

theorem a2b_pad_cont (rest : List Nat) (qp left pads : Nat)
    (h2 : 2 ≤ qp) (h4 : ¬ 4 ≤ qp + pads + 1) :
    a2bBase64 (61 :: rest) qp left pads = a2bBase64 rest qp left (pads + 1) := by
  simp only [a2bBase64, if_pos rfl, if_true, if_pos h2, if_neg h4]

theorem a2b_b64encode (bs : List Nat) :
    (∀ b ∈ bs, b < 256) → a2bBase64 (b64encode bs) 0 0 0 = .ok bs := by
  induction bs using b64encode.induct with
  | case1 a b c rest ih =>
    intro hb
    have ha : a < 256 := hb a (by simp)
    have hbb : b < 256 := hb b (by simp)
    have hc : c < 256 := hb c (by simp)
    have hrest := ih (fun x hx => hb x (by simp [hx]))
    rw [b64encode,
      a2b_data0 _ _ _ _ _ (decChar_encChar _ (by omega)) (encChar_ne_61 _ (by omega)),
      a2b_data1 _ _ _ _ _ (decChar_encChar _ (by omega)) (encChar_ne_61 _ (by omega)),
      a2b_data2 _ _ _ _ _ (decChar_encChar _ (by omega)) (encChar_ne_61 _ (by omega)),
      a2b_data3 _ _ _ _ _ (decChar_encChar _ (by omega)) (encChar_ne_61 _ (by omega)),
      hrest, except_map_ok, except_map_ok, except_map_ok]
    have e1 : a / 4 * 4 + (a % 4 * 16 + b / 16) / 16 = a := by omega
    have e2 : (a % 4 * 16 + b / 16) % 16 * 16 + (b % 16 * 4 + c / 64) / 4 = b := by
      omega
    have e3 : (b % 16 * 4 + c / 64) % 4 * 64 + c % 64 = c := by omega
    rw [e1, e2, e3]
  | case2 a b =>
    intro hb
    have ha : a < 256 := hb a (by simp)
    have hbb : b < 256 := hb b (by simp)
    rw [b64encode,
      a2b_data0 _ _ _ _ _ (decChar_encChar _ (by omega)) (encChar_ne_61 _ (by omega)),
      a2b_data1 _ _ _ _ _ (decChar_encChar _ (by omega)) (encChar_ne_61 _ (by omega)),
      a2b_data2 _ _ _ _ _ (decChar_encChar _ (by omega)) (encChar_ne_61 _ (by omega)),
      a2b_pad_done _ _ _ _ (by omega) (by omega)]
    simp only [except_map_ok]
    have e1 : a / 4 * 4 + (a % 4 * 16 + b / 16) / 16 = a := by omega
    have e2 : (a % 4 * 16 + b / 16) % 16 * 16 + (b % 16 * 4) / 4 = b := by omega
    rw [e1, e2]
  | case3 a =>
    intro hb
    have ha : a < 256 := hb a (by simp)
    rw [b64encode,
      a2b_data0 _ _ _ _ _ (decChar_encChar _ (by omega)) (encChar_ne_61 _ (by omega)),
      a2b_data1 _ _ _ _ _ (decChar_encChar _ (by omega)) (encChar_ne_61 _ (by omega)),
      a2b_pad_cont _ _ _ _ (by omega) (by omega),
      a2b_pad_done _ _ _ _ (by omega) (by omega)]
    simp only [except_map_ok]
    have e1 : a / 4 * 4 + (a % 4 * 16) / 16 = a := by omega
    rw [e1]
  | case4 =>
    intro _
    simp [b64encode, a2bBase64]

theorem except_map_error_inv {ε α β : Type} (x : Except ε α) (f : α → β)
    (e : ε) (h : x.map f = .error e) : x = .error e := by
  cases x with
  | ok a => rw [except_map_ok] at h; exact Except.noConfusion h
  | error e2 =>
    rw [except_map_error] at h
    rw [Except.error.inj h]

theorem a2b_pad_skip (rest : List Nat) (qp left pads : Nat) (h2 : ¬ 2 ≤ qp) :
    a2bBase64 (61 :: rest) qp left pads = a2bBase64 rest qp left pads := by
  simp only [a2bBase64, if_pos rfl, if_true, if_neg h2]

theorem a2b_skip (x : Nat) (rest : List Nat) (qp left pads : Nat)
    (hx : decChar x = none) (hne : x ≠ 61) :
    a2bBase64 (x :: rest) qp left pads = a2bBase64 rest qp left pads := by
  simp only [a2bBase64, if_neg hne, hx]

theorem a2b_data3p (x v : Nat) (rest : List Nat) (q left pads : Nat)
    (hx : decChar x = some v) (hne : x ≠ 61) :
    a2bBase64 (x :: rest) (q + 3) left pads
      = (a2bBase64 rest 0 0 0).map (fun l => (left * 64 + v) :: l) := by
  simp only [a2bBase64, if_neg hne, hx]

theorem a2bBase64_error_invalid :
    ∀ (chars : List Nat) (qp left pads : Nat) (e : DecodeError),
      a2bBase64 chars qp left pads = .error e → e = .InvalidEncodingError := by
  intro chars
  induction chars with
  | nil =>
    intro qp left pads e h
    rw [a2bBase64] at h
    by_cases hqp : qp = 0
    · rw [if_pos hqp] at h
      exact Except.noConfusion h
    · rw [if_neg hqp] at h
      exact (Except.error.inj h).symm
  | cons c rest ih =>
    intro qp left pads e h
    by_cases hc : c = 61
    · subst hc
      by_cases h2 : 2 ≤ qp
      · by_cases h4 : 4 ≤ qp + pads + 1
        · rw [a2b_pad_done rest qp left pads h2 h4] at h
          exact Except.noConfusion h
        · rw [a2b_pad_cont rest qp left pads h2 h4] at h
          exact ih _ _ _ _ h
      · rw [a2b_pad_skip rest qp left pads h2] at h
        exact ih _ _ _ _ h
    · cases hd : decChar c with
      | none =>
        rw [a2b_skip c rest qp left pads hd hc] at h
        exact ih _ _ _ _ h
      | some v =>
        match qp with
        | 0 =>
          rw [a2b_data0 c v rest left pads hd hc] at h
          exact ih _ _ _ _ h
        | 1 =>
          rw [a2b_data1 c v rest left pads hd hc] at h
          exact ih _ _ _ _ (except_map_error_inv _ _ _ h)
        | 2 =>
          rw [a2b_data2 c v rest left pads hd hc] at h
          exact ih _ _ _ _ (except_map_error_inv _ _ _ h)
        | q + 3 =>
          rw [a2b_data3p c v rest q left pads hd hc] at h
          exact ih _ _ _ _ (except_map_error_inv _ _ _ h)

/-- C7 is false as stated: not every malformed base64 input fails. The
four-character string "####" (ASCII 35; `#` is neither a base64 alphabet
character nor padding, so this string is not the base64 encoding of any
byte sequence) decodes successfully to the empty byte string, because
`base64.b64decode` silently discards characters outside the alphabet. -/
theorem claim7_counterexample_malformed_succeeds :
    decode_raw_events [35, 35, 35, 35] = .ok []
      ∧ decChar 35 = none ∧ (35 : Nat) ≠ 61 := by
  decide

/-- C7 amended: decoding is lenient — characters outside the base64
alphabet are silently discarded, so a malformed input does not always fail
— but every well-formed base64 string (the base64 encoding of a byte
sequence) decodes to exactly those bytes; whenever decoding of an ASCII
input fails, it fails with `InvalidEncodingError` producing no partial
output (a non-ASCII input instead fails up front with the distinct error
modelling CPython's `ValueError`), and failure is reachable, as on the
truncated input "YQ". -/
theorem claim7_amended_base64_decode (bs : List Nat)
    (hb : ∀ b ∈ bs, b < 256) :
    decode_raw_events (b64encode bs) = .ok bs
      ∧ (∀ (s : List Nat) (e : DecodeError),
          s.all (fun c => c < 128) = true →
          decode_raw_events s = .error e → e = .InvalidEncodingError)
      ∧ decode_raw_events [89, 81] = .error .InvalidEncodingError := by
  refine ⟨?_, ?_, by decide⟩
  · simp only [decode_raw_events, b64encode_ascii, if_true]
    exact a2b_b64encode bs hb
  · intro s e hs hfail
    rw [decode_raw_events, if_pos hs] at hfail
    exact a2bBase64_error_invalid s 0 0 0 e hfail

/-- C7 amended witness: the encoding of the bytes 1–5 round-trips, and the
failure on the ASCII input "YQ" carries `InvalidEncodingError`. -/
theorem claim7_amended_base64_decode_witness :
    decode_raw_events (b64encode [1, 2, 3, 4, 5]) = .ok [1, 2, 3, 4, 5]
      ∧ DecodeError.InvalidEncodingError = .InvalidEncodingError
      ∧ decode_raw_events [89, 81] = .error .InvalidEncodingError :=
  ⟨(claim7_amended_base64_decode [1, 2, 3, 4, 5] (by decide)).1,
    (claim7_amended_base64_decode [1, 2, 3, 4, 5] (by decide)).2.1
      [89, 81] .InvalidEncodingError (by decide) (by decide),
    (claim7_amended_base64_decode [1, 2, 3, 4, 5] (by decide)).2.2⟩

end TandemFetch
